import Mathlib

/-!
Shallow embedding of the acquisition-progress controller of
`timelapse_launcher.py` (class `TimelapseController` and its helpers) and of
the cancel handler `on_stop` of `tl_launcher.py`.

External library values (useq `MDASequence`, the pymmcore engine) are modelled
by plain structures carrying exactly the observables the code reads:
`sequence.shape`, `sequence.iter_events()` (as the list of events),
`sequence.sizes` (as an association list) and the napari-micromanager
`save_name` metadata entry.  Engine queries that the code wraps in
`try/except` are modelled as `Option` (with `none` for "the query raised",
which the code turns into the default value), and the `run_mda` submission as
an `Except` value.  Tk side effects (message boxes, status labels, the start
button) are recorded explicitly in the result structures.
-/

/-- Model of a useq `MDASequence` restricted to the observables read by the
launcher: `shape` (tuple of declared axis sizes), the event plan
(`iter_events`, kept as a list whose elements are irrelevant), `sizes`
(axis-name to size, absent axes reported as 0) and the `save_name` metadata
entry (absent modelled as `none`). -/
structure MDASequence where
  shape : List Nat
  events : List Unit
  sizes : List (String × Nat)
  save_name : Option String
deriving DecidableEq, Repr

/-- `sequence.sizes.get(axis)` with 0 for a missing axis (Python `None` and 0
are both falsy at the single use site, so 0 is a faithful default). -/
def sizesGet (s : MDASequence) (axis : String) : Nat :=
  match s.sizes.find? (fun p => p.fst == axis) with
  | some p => p.snd
  | none => 0

/-- `_total_events`: `math.prod(shape)` when the shape tuple is truthy
(non-empty), otherwise the length of `iter_events()`. -/
def _total_events (s : MDASequence) : Nat :=
  if s.shape ≠ [] then s.shape.prod else s.events.length

/-- `_sequence_name`: the `save_name` metadata entry, defaulting to
"Acquisition". -/
def _sequence_name (s : MDASequence) : String :=
  s.save_name.getD "Acquisition"

/-- The axis labels of `_sizes_summary`. -/
def axisLabel (axis : String) : String :=
  if axis = "t" then "time points"
  else if axis = "p" then "positions"
  else if axis = "g" then "grid points"
  else if axis = "c" then "channels"
  else if axis = "z" then "z planes"
  else axis

/-- `_sizes_summary`: one part per axis with a nonzero size, in the fixed
axis order, joined with ", "; "single image" when every size is zero. -/
def _sizes_summary (s : MDASequence) : String :=
  let parts := ["t", "p", "g", "c", "z"].filterMap (fun a =>
    let v := sizesGet s a
    if v ≠ 0 then some (toString v ++ " " ++ axisLabel a) else none)
  if parts = [] then "single image" else String.intercalate ", " parts

/-- Python `repr` of a plain string: the text wrapped in single quotes
(escaping inside the name is not exercised by the launcher). -/
def pyRepr (s : String) : String := "\x27" ++ s ++ "\x27"

/-- `Path.name`: the final component of the path string. -/
def pathName (p : String) : String := (p.splitOn "/").getLastD p

/-- `_build_summary_text`, which reads `self._frames_total` (passed here
explicitly) and the current sequence. -/
def _build_summary_text (frames_total : Nat) (sequence : MDASequence) : String :=
  let name := _sequence_name sequence
  let summary := _sizes_summary sequence
  let total := if frames_total = 0 then "?" else toString frames_total
  "Sequence " ++ pyRepr name ++ " (" ++ summary ++ ") — " ++ total ++ " expected images."

/-- The mutable fields of `TimelapseController` that the claims observe:
the two frame counters, the start button state (`tk.NORMAL` = `true`,
`tk.DISABLED` = `false`), the three Tk string variables and the current
sequence and its path. -/
structure CtrlState where
  frames_total : Nat
  frames_done : Nat
  startEnabled : Bool
  status : String
  sequence : MDASequence
  sequence_path : String
  summary_var : String
  sequence_var : String
deriving DecidableEq, Repr

/-- `TimelapseController.__init__`: totals computed from the sequence,
counter at 0, button NORMAL, status/summary/path labels initialised. -/
def initController (sequence : MDASequence) (sequence_path : String) : CtrlState :=
  let total := _total_events sequence
  { frames_total := total
  , frames_done := 0
  , startEnabled := true
  , status := "Ready to launch " ++ pyRepr (pathName sequence_path) ++ "."
  , sequence := sequence
  , sequence_path := sequence_path
  , summary_var := _build_summary_text total sequence
  , sequence_var := sequence_path }

/-- The four engine notifications the controller subscribes to. -/
inductive Notif where
  | sequenceStarted
  | sequenceFinished
  | sequenceCanceled
  | frameReady
deriving DecidableEq, Repr

/-- The status text set by `_frame_ready`:
`f"Frame {done}/{total} acquired."` with `total = self._frames_total or "?"`. -/
def frameStatus (done total : Nat) : String :=
  "Frame " ++ toString done ++ "/" ++ (if total = 0 then "?" else toString total)
    ++ " acquired."

/-- `_sequence_started`: counter to 0, button disabled, status set. -/
def _sequence_started (s : CtrlState) : CtrlState :=
  { s with frames_done := 0, startEnabled := false, status := "Time-lapse started." }

/-- `_sequence_finished`: button re-enabled, status set. -/
def _sequence_finished (s : CtrlState) : CtrlState :=
  { s with startEnabled := true, status := "Time-lapse completed." }

/-- `_sequence_canceled`: button re-enabled, status set. -/
def _sequence_canceled (s : CtrlState) : CtrlState :=
  { s with startEnabled := true, status := "Time-lapse canceled." }

/-- `_frame_ready`: unconditionally increments `_frames_done` and reports
progress; the handler inspects no other state. -/
def _frame_ready (s : CtrlState) : CtrlState :=
  { s with frames_done := s.frames_done + 1
         , status := frameStatus (s.frames_done + 1) s.frames_total }

/-- Dispatch of one engine notification to its connected handler. -/
def notifStep (s : CtrlState) : Notif → CtrlState
  | Notif.sequenceStarted => _sequence_started s
  | Notif.sequenceFinished => _sequence_finished s
  | Notif.sequenceCanceled => _sequence_canceled s
  | Notif.frameReady => _frame_ready s

/-- The controller after a whole trace of engine notifications. -/
def runTrace (s : CtrlState) (ns : List Notif) : CtrlState :=
  ns.foldl notifStep s

/-- Ghost abstraction of the counter updates performed by the handlers. -/
def counterStep (k : Nat) : Notif → Nat
  | Notif.sequenceStarted => 0
  | Notif.frameReady => k + 1
  | _ => k

/-- The counter abstraction over a whole trace. -/
def counterFold (k : Nat) (ns : List Notif) : Nat :=
  ns.foldl counterStep k

/-- A concrete sequence with declared shape `(2,)`. -/
def seqT2 : MDASequence :=
  { shape := [2], events := [(), ()], sizes := [("t", 2)], save_name := some "demo" }

/-- A concrete controller bound to `seqT2`. -/
def ctrlT2 : CtrlState := initController seqT2 "/tmp/demo.useq.json"

lemma frames_done_notifStep (s : CtrlState) (n : Notif) :
    (notifStep s n).frames_done = counterStep s.frames_done n := by
  cases n <;> rfl

lemma frames_done_runTrace (s : CtrlState) (ns : List Notif) :
    (runTrace s ns).frames_done = counterFold s.frames_done ns := by
  induction ns generalizing s with
  | nil => rfl
  | cons n ns ih =>
      show (runTrace (notifStep s n) ns).frames_done
        = counterFold (counterStep s.frames_done n) ns
      rw [ih, frames_done_notifStep]

lemma frames_total_notifStep (s : CtrlState) (n : Notif) :
    (notifStep s n).frames_total = s.frames_total := by
  cases n <;> rfl

lemma frames_total_runTrace (s : CtrlState) (ns : List Notif) :
    (runTrace s ns).frames_total = s.frames_total := by
  induction ns generalizing s with
  | nil => rfl
  | cons n ns ih =>
      show (runTrace (notifStep s n) ns).frames_total = s.frames_total
      rw [ih, frames_total_notifStep]

/-- Claim C1: every sequence-started notification resets the frame counter to
exactly 0 — whatever was delivered before it — and every frame-ready
notification increments the counter by exactly 1. -/
theorem frame_counter_reset_and_increment (s : CtrlState) (ns : List Notif) :
    (runTrace s (ns ++ [Notif.sequenceStarted])).frames_done = 0
    ∧ (notifStep s Notif.frameReady).frames_done = s.frames_done + 1 := by
  constructor
  · show ((ns ++ [Notif.sequenceStarted]).foldl notifStep s).frames_done = 0
    rw [List.foldl_append]
    rfl
  · rfl

/-- Claim C2 counterexample: after started followed by finished (a terminal
notification, with no new started in between), a frame-ready notification
still changes the counter — `_frame_ready` has no terminal-state guard, so
the frame is counted, not discarded. -/
theorem frame_after_finished_still_counted_cex :
    (runTrace ctrlT2 [Notif.sequenceStarted, Notif.sequenceFinished]).frames_done = 0
    ∧ (runTrace ctrlT2
        [Notif.sequenceStarted, Notif.sequenceFinished, Notif.frameReady]).frames_done = 1 :=
  ⟨rfl, rfl⟩

/-- Claim C2 amended: a frame-ready notification delivered after a finished
or canceled notification still increments the counter by exactly 1, the same
as during a run; the handler never suppresses post-terminal frames, and the
counter is only reset by the next started notification. -/
theorem frame_after_terminal_increments (s : CtrlState) :
    (notifStep (notifStep s Notif.sequenceFinished) Notif.frameReady).frames_done
      = (notifStep s Notif.sequenceFinished).frames_done + 1
    ∧ (notifStep (notifStep s Notif.sequenceCanceled) Notif.frameReady).frames_done
      = (notifStep s Notif.sequenceCanceled).frames_done + 1 :=
  ⟨rfl, rfl⟩

/-- Claim C4 counterexample: the expected total of `ctrlT2` is known (2), yet
a trace that delivers three frame-ready notifications after started drives
the counter to 3, strictly above the total — nothing in the handlers bounds
the counter by the total. -/
theorem counter_can_exceed_total_cex :
    ctrlT2.frames_total = 2
    ∧ (runTrace ctrlT2
        [Notif.sequenceStarted, Notif.frameReady, Notif.frameReady,
         Notif.frameReady]).frames_total = 2
    ∧ (runTrace ctrlT2
        [Notif.sequenceStarted, Notif.frameReady, Notif.frameReady,
         Notif.frameReady]).frames_done = 3 :=
  ⟨rfl, rfl, rfl⟩

/-- Claim C4 amended: when the expected total is known, the counter stays at
or below the total provided the delivered notifications keep the running
frame count within the total — that is, at most total-many frame-ready
notifications arrive after the last started notification (the code itself
never clamps the counter, so an engine that over-delivers drives it past the
total). -/
theorem counter_le_total_of_bounded_delivery (s : CtrlState) (ns : List Notif)
    (hknown : s.frames_total ≠ 0)
    (hbound : counterFold s.frames_done ns ≤ s.frames_total) :
    (runTrace s ns).frames_done ≤ (runTrace s ns).frames_total := by
  rw [frames_done_runTrace, frames_total_runTrace]
  exact hbound

/-- Witness for the amended C4 at a concrete controller and trace. -/
theorem counter_le_total_of_bounded_delivery_witness :
    (runTrace ctrlT2 [Notif.sequenceStarted, Notif.frameReady]).frames_done
      ≤ (runTrace ctrlT2 [Notif.sequenceStarted, Notif.frameReady]).frames_total :=
  counter_le_total_of_bounded_delivery ctrlT2 [Notif.sequenceStarted, Notif.frameReady]
    (by decide) (by decide)

/-- An exception raised by `core.run_mda`: whether it is a `RuntimeError`
(versus another `Exception`) and its message string. -/
structure RunExc where
  isRuntimeError : Bool
  msg : String
deriving DecidableEq, Repr

/-- Python substring containment (`needle in hay`), via `splitOn`: the
needle occurs iff splitting on it yields more than one part. -/
def strContains (hay needle : String) : Bool :=
  (hay.splitOn needle).length > 1

/-- The marker tested by `start_timelapse`:
`'No device with label ""' in str(exc)`. -/
def hasNoDeviceMarker (m : String) : Bool :=
  strContains m "No device with label \"\""

/-- The engine observables `start_timelapse` consults: the loaded-device
list and the focus device (each `none` when the query raises, which the
code turns into `()` and `""` respectively), whether an acquisition is
running, and the outcome of submitting `run_mda`. -/
structure Engine where
  loadedDevices : Option (List String)
  focusDevice : Option String
  mdaRunning : Bool
  runResult : Except RunExc Unit
deriving Repr

/-- The classified outcome of one `start_timelapse` call, as surfaced to the
operator: a configuration-missing error dialog, the already-running warning,
a generic run-failure dialog, or a successfully submitted run. -/
inductive StartOutcome where
  | configMissing
  | alreadyRunning
  | runError
  | submitted
deriving DecidableEq, Repr

/-- Result of one `start_timelapse` call: the controller state afterwards,
whether `core.run_mda` was invoked, how many error and warning dialogs were
shown, and the classified outcome. -/
structure StartResult where
  state : CtrlState
  runInvoked : Bool
  errorDialogs : Nat
  warnDialogs : Nat
  outcome : StartOutcome
deriving DecidableEq, Repr

/-- The `missing` list built by `_micro_manager_ready`: a message when at
most one device is loaded (only the Core device), and a message when the
focus-device query returns a falsy (empty) string. -/
def _micro_manager_ready_missing (e : Engine) : List String :=
  let devices := e.loadedDevices.getD []
  let m1 := if devices.length ≤ 1 then
    ["No Micro-Manager configuration is currently loaded (only the Core device is available)."]
    else []
  let focus := e.focusDevice.getD ""
  let m2 := if focus = "" then ["No focus drive is selected in Micro-Manager."] else []
  m1 ++ m2

/-- `_micro_manager_ready`: true iff the missing list is empty. -/
def _micro_manager_ready (e : Engine) : Bool :=
  _micro_manager_ready_missing e = []

/-- `_handle_configuration_error`: shows one error dialog (counted by the
caller) and sets the status line. -/
def _handle_configuration_error (s : CtrlState) : CtrlState :=
  { s with status := "Micro-Manager configuration missing." }

/-- `_handle_run_error`: sets the failure status, shows one error dialog
(counted by the caller) and re-enables the start button. -/
def _handle_run_error (s : CtrlState) : CtrlState :=
  { s with status := "Failed to start the time-lapse.", startEnabled := true }

/-- `start_timelapse`, in the order the source executes it: the
configuration-readiness check, then the is-running check, then the status
update and the `run_mda` submission with its two exception handlers
(`RuntimeError` carrying the no-device marker is classified as a
configuration error; every other exception as a generic run failure). -/
def start_timelapse (e : Engine) (s : CtrlState) : StartResult :=
  if _micro_manager_ready_missing e ≠ [] then
    { state := _handle_configuration_error s, runInvoked := false
    , errorDialogs := 1, warnDialogs := 0, outcome := StartOutcome.configMissing }
  else if e.mdaRunning then
    { state := s, runInvoked := false
    , errorDialogs := 0, warnDialogs := 1, outcome := StartOutcome.alreadyRunning }
  else
    let s1 := { s with status := "Starting time-lapse..." }
    match e.runResult with
    | Except.ok _ =>
        { state := s1, runInvoked := true
        , errorDialogs := 0, warnDialogs := 0, outcome := StartOutcome.submitted }
    | Except.error exc =>
        if exc.isRuntimeError && hasNoDeviceMarker exc.msg then
          { state := _handle_configuration_error s1, runInvoked := true
          , errorDialogs := 1, warnDialogs := 0, outcome := StartOutcome.configMissing }
        else
          { state := _handle_run_error s1, runInvoked := true
          , errorDialogs := 1, warnDialogs := 0, outcome := StartOutcome.runError }

/-- Claim C5: whenever the readiness check fails (at most one loaded device,
or an empty focus device), `start_timelapse` reports a configuration-missing
error (exactly one dialog), never invokes `run_mda`, and leaves the
start-button (Idle/ready) state unchanged. -/
theorem config_missing_blocks_start (e : Engine) (s : CtrlState)
    (h : (e.loadedDevices.getD []).length ≤ 1 ∨ e.focusDevice.getD "" = "") :
    (start_timelapse e s).outcome = StartOutcome.configMissing
    ∧ (start_timelapse e s).runInvoked = false
    ∧ (start_timelapse e s).errorDialogs = 1
    ∧ (start_timelapse e s).state.startEnabled = s.startEnabled := by
  have hne : _micro_manager_ready_missing e ≠ [] := by
    unfold _micro_manager_ready_missing
    rcases h with h1 | h2
    · simp [h1]
    · simp [h2]
  unfold start_timelapse
  rw [if_pos hne]
  exact ⟨rfl, rfl, rfl, rfl⟩

/-- Witness for C5: an engine with no configuration loaded. -/
theorem config_missing_blocks_start_witness :
    (start_timelapse
        { loadedDevices := some [], focusDevice := some "Z", mdaRunning := false
        , runResult := Except.ok () } ctrlT2).outcome = StartOutcome.configMissing
    ∧ (start_timelapse
        { loadedDevices := some [], focusDevice := some "Z", mdaRunning := false
        , runResult := Except.ok () } ctrlT2).runInvoked = false
    ∧ (start_timelapse
        { loadedDevices := some [], focusDevice := some "Z", mdaRunning := false
        , runResult := Except.ok () } ctrlT2).errorDialogs = 1
    ∧ (start_timelapse
        { loadedDevices := some [], focusDevice := some "Z", mdaRunning := false
        , runResult := Except.ok () } ctrlT2).state.startEnabled = ctrlT2.startEnabled :=
  config_missing_blocks_start
    { loadedDevices := some [], focusDevice := some "Z", mdaRunning := false
    , runResult := Except.ok () } ctrlT2 (Or.inl (by decide))

/-- An engine that reports a running acquisition while the configuration
check also fails (no devices, empty focus device). -/
def engineBusyNoConfig : Engine :=
  { loadedDevices := some [], focusDevice := some "", mdaRunning := true
  , runResult := Except.ok () }

/-- Claim C6 counterexample: with the engine reporting an acquisition in
progress but the configuration check failing, `start_timelapse` reports
configuration-missing, not the already-running response — the readiness
check runs first in the source. -/
theorem busy_start_not_always_already_running_cex :
    engineBusyNoConfig.mdaRunning = true
    ∧ (start_timelapse engineBusyNoConfig ctrlT2).outcome ≠ StartOutcome.alreadyRunning
    ∧ (start_timelapse engineBusyNoConfig ctrlT2).outcome = StartOutcome.configMissing :=
  ⟨rfl, by decide, rfl⟩

/-- Claim C6 amended: when the configuration-readiness check passes, a start
while the engine reports a running acquisition returns the already-running
response without invoking `run_mda` and without touching the controller
state; when no acquisition is running (Idle, Completed and Canceled alike)
the run command is invoked.  A failing configuration check takes precedence
over the already-running response (and also never invokes the run command). -/
theorem running_blocks_start_when_ready (e : Engine) (s : CtrlState)
    (hready : _micro_manager_ready_missing e = []) :
    (e.mdaRunning = true →
      (start_timelapse e s).outcome = StartOutcome.alreadyRunning
      ∧ (start_timelapse e s).runInvoked = false
      ∧ (start_timelapse e s).state = s)
    ∧ (e.mdaRunning = false → (start_timelapse e s).runInvoked = true) := by
  unfold start_timelapse
  rw [if_neg (by simp [hready])]
  constructor
  · intro hr
    rw [if_pos hr]
    exact ⟨rfl, rfl, rfl⟩
  · intro hr
    rw [if_neg (by simp [hr])]
    cases e.runResult with
    | ok u => rfl
    | error exc =>
        dsimp only
        split <;> rfl

/-- Witness for the amended C6: a ready engine with a run in progress blocks
the start with the already-running response. -/
theorem running_blocks_start_when_ready_witness :
    (start_timelapse
      { loadedDevices := some ["Core", "Camera"], focusDevice := some "Z"
      , mdaRunning := true, runResult := Except.ok () } ctrlT2).outcome
        = StartOutcome.alreadyRunning
    ∧ (start_timelapse
      { loadedDevices := some ["Core", "Camera"], focusDevice := some "Z"
      , mdaRunning := true, runResult := Except.ok () } ctrlT2).runInvoked = false
    ∧ (start_timelapse
      { loadedDevices := some ["Core", "Camera"], focusDevice := some "Z"
      , mdaRunning := true, runResult := Except.ok () } ctrlT2).state = ctrlT2 :=
  (running_blocks_start_when_ready
    { loadedDevices := some ["Core", "Camera"], focusDevice := some "Z"
    , mdaRunning := true, runResult := Except.ok () } ctrlT2 (by decide)).1 rfl

/-- A `RuntimeError` carrying the missing-focus-device marker. -/
def excNoDevice : RunExc :=
  { isRuntimeError := true, msg := "No device with label \"\"!" }

/-- A ready, idle engine whose `run_mda` raises `excNoDevice`. -/
def engRunExcCfg : Engine :=
  { loadedDevices := some ["Core", "Camera"], focusDevice := some "Z"
  , mdaRunning := false, runResult := Except.error excNoDevice }

/-- Claim C7: every exception raised by `run_mda` is caught, reported via
exactly one error dialog, classified as configuration-missing exactly when
it is a `RuntimeError` whose message contains the no-device marker (and as a
generic run failure otherwise), and leaves the start button in the
ready-to-start state. -/
theorem run_exception_handled (e : Engine) (s : CtrlState) (exc : RunExc)
    (hready : _micro_manager_ready_missing e = [])
    (hrun : e.mdaRunning = false)
    (herr : e.runResult = Except.error exc)
    (hidle : s.startEnabled = true) :
    (start_timelapse e s).runInvoked = true
    ∧ (start_timelapse e s).errorDialogs = 1
    ∧ (start_timelapse e s).warnDialogs = 0
    ∧ ((start_timelapse e s).outcome = StartOutcome.configMissing
        ↔ (exc.isRuntimeError && hasNoDeviceMarker exc.msg) = true)
    ∧ ((start_timelapse e s).outcome = StartOutcome.configMissing
        ∨ (start_timelapse e s).outcome = StartOutcome.runError)
    ∧ (start_timelapse e s).state.startEnabled = true := by
  unfold start_timelapse
  rw [if_neg (by simp [hready]), if_neg (by simp [hrun]), herr]
  dsimp only
  by_cases hc : (exc.isRuntimeError && hasNoDeviceMarker exc.msg) = true
  · rw [if_pos hc]
    refine ⟨rfl, rfl, rfl, by simp [hc], Or.inl rfl, hidle⟩
  · rw [if_neg hc]
    refine ⟨rfl, rfl, rfl, by simp [hc], Or.inr rfl, rfl⟩

/-- Witness for C7 at the marker-carrying `RuntimeError`. -/
theorem run_exception_handled_witness :
    (start_timelapse engRunExcCfg ctrlT2).runInvoked = true
    ∧ (start_timelapse engRunExcCfg ctrlT2).errorDialogs = 1
    ∧ (start_timelapse engRunExcCfg ctrlT2).warnDialogs = 0
    ∧ ((start_timelapse engRunExcCfg ctrlT2).outcome = StartOutcome.configMissing
        ↔ (excNoDevice.isRuntimeError && hasNoDeviceMarker excNoDevice.msg) = true)
    ∧ ((start_timelapse engRunExcCfg ctrlT2).outcome = StartOutcome.configMissing
        ∨ (start_timelapse engRunExcCfg ctrlT2).outcome = StartOutcome.runError)
    ∧ (start_timelapse engRunExcCfg ctrlT2).state.startEnabled = true :=
  run_exception_handled engRunExcCfg ctrlT2 excNoDevice rfl rfl rfl rfl

lemma frameStatus_ne_canceled (d t : Nat) :
    frameStatus d t ≠ "Time-lapse canceled." := by
  intro h
  have h1 := congrArg (fun x => x.data.head?) h
  simp only [frameStatus, String.data_append] at h1
  simp at h1

/-- The observable state of the `tl_launcher` widget touched by `on_stop`:
its status label. -/
structure TLWidgetState where
  status : String
deriving DecidableEq, Repr

/-- `on_stop` of `tl_launcher.py`: when the engine reports a running
acquisition it calls `c.mda.cancel()` (recorded as the Boolean component)
and updates its own status label; otherwise it does nothing.  The engine's
`cancel` is modelled as non-raising (the `except` branch only wraps engine
failures). -/
def on_stop (running : Bool) (w : TLWidgetState) : Bool × TLWidgetState :=
  if running then (true, { status := "Acquisition cancelled." })
  else (false, w)

/-- Claim C8: `on_stop` requests engine cancellation exactly when the engine
reports a run in progress and is a complete no-op otherwise; it takes no
controller state at all, and the controller reaches its Canceled
presentation (status "Time-lapse canceled.") through exactly one
notification step — the engine's sequence-canceled notification — never
through the cancel request itself. -/
theorem cancel_request_vs_canceled_state (running : Bool) (w : TLWidgetState)
    (s : CtrlState) (n : Notif) :
    ((on_stop running w).fst = running)
    ∧ (running = false → on_stop running w = (false, w))
    ∧ ((notifStep s n).status = "Time-lapse canceled." ↔ n = Notif.sequenceCanceled) := by
  refine ⟨?_, ?_, ?_⟩
  · cases running <;> rfl
  · intro hr
    rw [hr]
    rfl
  · cases n with
    | sequenceStarted => simp [notifStep, _sequence_started]
    | sequenceFinished => simp [notifStep, _sequence_finished]
    | sequenceCanceled => simp [notifStep, _sequence_canceled]
    | frameReady =>
        simp only [notifStep, _frame_ready]
        constructor
        · intro h
          exact absurd h (frameStatus_ne_canceled (s.frames_done + 1) s.frames_total)
        · intro h
          exact absurd h (by simp)

/-- Witness for C8: with no acquisition running, the stop handler is a
no-op. -/
theorem cancel_request_vs_canceled_state_witness :
    on_stop false { status := "idle" } = (false, { status := "idle" }) :=
  (cancel_request_vs_canceled_state false { status := "idle" } ctrlT2
    Notif.sequenceCanceled).2.1 rfl

/-- Which of the four notification handlers are currently connected to the
engine's signals. -/
structure Connections where
  started : Bool
  finished : Bool
  canceled : Bool
  frameReady : Bool
deriving DecidableEq, Repr

/-- `_connect_signals`: all four handlers connected at construction. -/
def _connect_signals : Connections :=
  { started := true, finished := true, canceled := true, frameReady := true }

/-- `_disconnect_signals`: all four handlers disconnected (the
`contextlib.suppress` wrapper only guards engine-side disconnect failures,
modelled as non-raising). -/
def _disconnect_signals (c : Connections) : Connections :=
  { started := false, finished := false, canceled := false, frameReady := false }

/-- Result of `_on_close`: whether the window was destroyed and the signal
connections afterwards. -/
structure CloseResult where
  destroyed : Bool
  conns : Connections
deriving DecidableEq, Repr

/-- `_on_close`: when a run is in progress and the operator answers no to
the confirmation dialog, the handler returns with nothing changed;
otherwise it disconnects the signals and then destroys the window. -/
def _on_close (running confirmClose : Bool) (c : Connections) : CloseResult :=
  if running && !confirmClose then { destroyed := false, conns := c }
  else { destroyed := true, conns := _disconnect_signals c }

/-- Claim C9: whenever `_on_close` destroys the window (directly when no run
is in progress, or after operator confirmation when one is), all four
notification handlers have been unsubscribed, so no engine notification can
fire into the disposed controller. -/
theorem close_disconnects_all_signals (running confirmClose : Bool)
    (c : Connections)
    (h : (_on_close running confirmClose c).destroyed = true) :
    (_on_close running confirmClose c).conns.started = false
    ∧ (_on_close running confirmClose c).conns.finished = false
    ∧ (_on_close running confirmClose c).conns.canceled = false
    ∧ (_on_close running confirmClose c).conns.frameReady = false := by
  unfold _on_close at *
  by_cases hb : (running && !confirmClose) = true
  · rw [if_pos hb] at h
    exact absurd h (by simp)
  · rw [if_neg hb]
    exact ⟨rfl, rfl, rfl, rfl⟩

/-- Witness for C9: closing with a run in progress and operator
confirmation destroys the window with every handler disconnected. -/
theorem close_disconnects_all_signals_witness :
    (_on_close true true _connect_signals).conns.started = false
    ∧ (_on_close true true _connect_signals).conns.finished = false
    ∧ (_on_close true true _connect_signals).conns.canceled = false
    ∧ (_on_close true true _connect_signals).conns.frameReady = false :=
  close_disconnects_all_signals true true _connect_signals rfl

/-- Result of `change_sequence`: the controller state afterwards and the
number of error dialogs shown. -/
structure ChangeResult where
  state : CtrlState
  errorDialogs : Nat
deriving DecidableEq, Repr

/-- `change_sequence`: the file dialog returns a path ("" when the operator
cancels); a failed `_read_sequence_file` shows one error dialog and returns
before any assignment; a successful read installs the new sequence, its
path, the recomputed total, the rebuilt summary, the displayed path and the
ready status, in source order. -/
def change_sequence (dialogPath : String)
    (readFile : String → Except String MDASequence) (s : CtrlState) : ChangeResult :=
  if dialogPath = "" then { state := s, errorDialogs := 0 }
  else
    match readFile dialogPath with
    | Except.error _ => { state := s, errorDialogs := 1 }
    | Except.ok sequence =>
        let total := _total_events sequence
        { state :=
            { s with sequence := sequence
                   , sequence_path := dialogPath
                   , frames_total := total
                   , summary_var := _build_summary_text total sequence
                   , sequence_var := dialogPath
                   , status := "Sequence ready." }
        , errorDialogs := 0 }

/-- Claim C10: when reading the newly selected file fails, `change_sequence`
leaves the whole observable controller state unchanged — sequence, path,
expected total, summary text and displayed path included — and its only
effect is a single error report. -/
theorem change_sequence_atomic_on_error (dialogPath : String)
    (readFile : String → Except String MDASequence) (s : CtrlState) (e : String)
    (hp : dialogPath ≠ "")
    (hr : readFile dialogPath = Except.error e) :
    (change_sequence dialogPath readFile s).state = s
    ∧ (change_sequence dialogPath readFile s).errorDialogs = 1 := by
  unfold change_sequence
  rw [if_neg hp, hr]
  exact ⟨rfl, rfl⟩

/-- Witness for C10 at a concrete failing reader. -/
theorem change_sequence_atomic_on_error_witness :
    (change_sequence "/tmp/broken.useq.json"
        (fun _ => Except.error "ValueError: invalid JSON") ctrlT2).state = ctrlT2
    ∧ (change_sequence "/tmp/broken.useq.json"
        (fun _ => Except.error "ValueError: invalid JSON") ctrlT2).errorDialogs = 1 :=
  change_sequence_atomic_on_error "/tmp/broken.useq.json"
    (fun _ => Except.error "ValueError: invalid JSON") ctrlT2
    "ValueError: invalid JSON" (by decide) rfl

/-- Claim C3: a sequence with a non-empty declared shape has expected frame
count equal to the product of the declared axis sizes; a sequence with an
empty shape has expected frame count equal to the number of events of its
event plan. -/
theorem total_events_spec (s : MDASequence) :
    (s.shape ≠ [] → _total_events s = s.shape.prod)
    ∧ (s.shape = [] → _total_events s = s.events.length) := by
  constructor
  · intro h
    unfold _total_events
    rw [if_pos h]
  · intro h
    unfold _total_events
    rw [if_neg (by simp [h])]

/-- Witness for C3 on a shaped and an unshaped sequence. -/
theorem total_events_spec_witness :
    _total_events seqT2 = seqT2.shape.prod
    ∧ _total_events
        { shape := [], events := [(), (), ()], sizes := [], save_name := none }
      = ({ shape := [], events := [(), (), ()], sizes := [], save_name := none }
          : MDASequence).events.length :=
  ⟨(total_events_spec seqT2).1 (by decide),
   (total_events_spec
      { shape := [], events := [(), (), ()], sizes := [], save_name := none }).2 rfl⟩
